import Mathlib

/-
Verification of the gfx-sandbox environment preprocessing pipeline.

This file shallowly embeds the parts of the WebGPU backend that the
specification talks about:

- mip level count computation (WebgpuRenderer.cpp: CreateTexture,
  CreateEnvironmentTexture; MipmapGenerator: generate2DCompute,
  generateCubeCompute),
- the compute mip-generation dispatch schedules (MipmapGenerator.h
  implementation: generate2DCompute, generateCubeCompute),
- the environment-update orchestration trace (WebgpuRenderer.cpp:
  UpdateEnvironment, CreateEnvironmentTextures, Shutdown),
- per-face uniform buffer initialization (PanoramaToCubemapConverter.cpp:
  InitUniformBuffers/InitBindGroups; MipmapGenerator: initUniformBuffers,
  initBindGroupLayouts),
- the panorama sampler configuration (PanoramaToCubemapConverter.cpp:
  InitSampler, InitBindGroupLayouts),
- host-side environment image loading (Environment.cpp: LoadFromSource,
  DownsampleTexture, Environment::Load),
- FloorPow2 (WebgpuRenderer.cpp).

Machine integers are modelled as Nat (all quantities involved are small
unsigned values far from 2^32), float pixel data as rationals.
-/

namespace GfxSandbox

/-- Texture extent, mirroring wgpu::Extent3D. -/
structure Extent3D where
  width : Nat
  height : Nat
  depthOrArrayLayers : Nat
deriving DecidableEq, Repr

/-- Mip level count formula used throughout the pipeline:
`1 + floor(log2(max(width, height)))`.  The C++ sites compute it as
`static_cast of std::log2(std::max(w, h))` plus one (MipmapGenerator
generate2DCompute / generateCubeCompute / generate2DRenderSRGB) or as
`std::floor(std::log2(std::max(w, h))) + 1` (WebgpuRenderer CreateTexture);
on naturals both are `Nat.log2 (max w h) + 1`. -/
def mipLevelCountFor (w h : Nat) : Nat :=
  Nat.log2 (max w h) + 1

/-- Mip level count of a model texture created by WebgpuRenderer
CreateTexture (lines 84 to 86): the extent is the texture info's, or 1x1
for the default pixel when no texture info is given. -/
def createTexture_mipLevelCount (textureInfo : Option (Nat × Nat)) : Nat :=
  match textureInfo with
  | some (w, h) => mipLevelCountFor w h
  | none => mipLevelCountFor 1 1

/-- Mip level count of an environment texture created by WebgpuRenderer
CreateEnvironmentTexture (lines 184 to 186): the full formula when
mipmapping is requested, otherwise a single level. -/
def createEnvironmentTexture_mipLevelCount (size : Extent3D) (mipmapping : Bool) : Nat :=
  if mipmapping then mipLevelCountFor size.width size.height else 1

/-- Characterization of `Nat.log2`: for positive m, `Nat.log2 m` is the
floor of the base-2 logarithm, i.e. the unique k with 2 ^ k ≤ m < 2 ^ (k + 1). -/
theorem log2_spec (m : Nat) (hm : 1 ≤ m) :
    2 ^ Nat.log2 m ≤ m ∧ m < 2 ^ (Nat.log2 m + 1) := by
  rw [Nat.log2_eq_log_two]
  constructor
  · exact Nat.pow_log_le_self 2 (by omega)
  · exact Nat.lt_pow_succ_log_self (by omega) m

/-- A mip level count is determined by bracketing powers of two. -/
theorem mipLevelCountFor_eq (w h k : Nat) (h1 : 2 ^ k ≤ max w h) (h2 : max w h < 2 ^ (k + 1)) :
    mipLevelCountFor w h = k + 1 := by
  unfold mipLevelCountFor
  rw [Nat.log2_eq_log_two, Nat.log_eq_of_pow_le_of_lt_pow h1 h2]

/-- C1: for every texture created or mipped by the pipeline, the mip level
count equals `floor(log2(max(width, height))) + 1` (characterized by
`2 ^ (count - 1) ≤ max w h < 2 ^ count`), it is recomputed from the base
extent (the count is a function of the extent alone, shared by CreateTexture,
CreateEnvironmentTexture with mipmapping, and the mip generators), and it
takes the values 1, 11, 10, 13 on the representative extents 1x1, 1x1024,
513x513, 4096x2048. -/
theorem mipLevelCount_spec (w h : Nat) (d : Nat) (hpos : 1 ≤ max w h) :
    (2 ^ (mipLevelCountFor w h - 1) ≤ max w h ∧
      max w h < 2 ^ (mipLevelCountFor w h) ∧
      mipLevelCountFor w h = Nat.log2 (max w h) + 1) ∧
    (createTexture_mipLevelCount (some (w, h)) = mipLevelCountFor w h ∧
      createEnvironmentTexture_mipLevelCount ⟨w, h, d⟩ true = mipLevelCountFor w h) ∧
    (mipLevelCountFor 1 1 = 1 ∧ mipLevelCountFor 1 1024 = 11 ∧
      mipLevelCountFor 513 513 = 10 ∧ mipLevelCountFor 4096 2048 = 13) := by
  refine ⟨⟨?_, ?_, rfl⟩, ⟨rfl, rfl⟩,
    mipLevelCountFor_eq 1 1 0 (by decide) (by decide),
    mipLevelCountFor_eq 1 1024 10 (by decide) (by decide),
    mipLevelCountFor_eq 513 513 9 (by decide) (by decide),
    mipLevelCountFor_eq 4096 2048 12 (by decide) (by decide)⟩
  · have := (log2_spec (max w h) hpos).1
    simpa [mipLevelCountFor] using this
  · have := (log2_spec (max w h) hpos).2
    simpa [mipLevelCountFor] using this

/-- C1 witness: the theorem applied at the concrete extent 513x513. -/
theorem mipLevelCount_spec_witness :
    (1 : Nat) ≤ max 513 513 ∧
    (2 ^ (mipLevelCountFor 513 513 - 1) ≤ max 513 513 ∧
      max 513 513 < 2 ^ (mipLevelCountFor 513 513) ∧
      mipLevelCountFor 513 513 = Nat.log2 (max 513 513) + 1) ∧
    (createTexture_mipLevelCount (some (513, 513)) = mipLevelCountFor 513 513 ∧
      createEnvironmentTexture_mipLevelCount ⟨513, 513, 6⟩ true = mipLevelCountFor 513 513) ∧
    (mipLevelCountFor 1 1 = 1 ∧ mipLevelCountFor 1 1024 = 11 ∧
      mipLevelCountFor 513 513 = 10 ∧ mipLevelCountFor 4096 2048 = 13) :=
  ⟨by decide, mipLevelCount_spec 513 513 6 (by decide)⟩

/-- One compute dispatch of the 2D mip-generation loop (MipmapGenerator
generate2DCompute, lines 311 to 326): the bind group reads the view of
`srcLevel` (binding 0) and writes the view of `dstLevel` (binding 1), and
`workgroupsX x workgroupsY x 1` workgroups are dispatched. -/
structure MipDispatch where
  srcLevel : Nat
  dstLevel : Nat
  workgroupsX : Nat
  workgroupsY : Nat
deriving DecidableEq, Repr

/-- One compute dispatch of the cube mip-generation loop (MipmapGenerator
generateCubeCompute, lines 366 to 385): additionally carries the face whose
per-face bind group is set for the dispatch. -/
structure CubeMipDispatch where
  face : Nat
  srcLevel : Nat
  dstLevel : Nat
  workgroupsX : Nat
  workgroupsY : Nat
deriving DecidableEq, Repr

/-- Dimension of mip level `level` of a base dimension:
`std::max(1u, base >> level)`. -/
def mipDim (base level : Nat) : Nat :=
  max 1 (base >>> level)

/-- Workgroup count along one axis: `(dim + workgroupSize - 1) / workgroupSize`
with `workgroupSize = 8`. -/
def workgroupCount (dim : Nat) : Nat :=
  (dim + 8 - 1) / 8

/-- Body of the per-level loop shared by generate2DCompute and
generateCubeCompute: for destination level `nextLevel`, bind the view of
level `nextLevel - 1` as input and `nextLevel` as output, and dispatch
ceil-divided workgroups over the destination dimensions. -/
def mipDispatchFor (size : Extent3D) (nextLevel : Nat) : MipDispatch :=
  { srcLevel := nextLevel - 1
    dstLevel := nextLevel
    workgroupsX := workgroupCount (mipDim size.width nextLevel)
    workgroupsY := workgroupCount (mipDim size.height nextLevel) }

/-- Dispatch schedule of MipmapGenerator generate2DCompute: the loop
`for nextLevel = 1; nextLevel < mipLevelCount; ++nextLevel`. -/
def generate2DCompute (size : Extent3D) : List MipDispatch :=
  (List.range' 1 (mipLevelCountFor size.width size.height - 1)).map (mipDispatchFor size)

/-- Dispatch schedule of MipmapGenerator generateCubeCompute: the outer loop
runs over faces 0 to 5, the inner loop over destination levels 1 to
mipLevelCount - 1, with the same bind/dispatch body as the 2D path. -/
def generateCubeCompute (size : Extent3D) : List CubeMipDispatch :=
  (List.range 6).flatMap fun face =>
    (List.range' 1 (mipLevelCountFor size.width size.height - 1)).map fun nextLevel =>
      { face := face
        srcLevel := nextLevel - 1
        dstLevel := nextLevel
        workgroupsX := workgroupCount (mipDim size.width nextLevel)
        workgroupsY := workgroupCount (mipDim size.height nextLevel) }

theorem mipDim_pos (base level : Nat) : 1 ≤ mipDim base level :=
  le_max_left 1 _

/-- The workgroup count is the ceiling of dim / 8: the dispatched workgroups
cover the destination dimension and the last workgroup is not empty. -/
theorem workgroupCount_spec (dim : Nat) (h : 1 ≤ dim) :
    8 * (workgroupCount dim - 1) < dim ∧ dim ≤ 8 * workgroupCount dim := by
  unfold workgroupCount
  omega

/-- A dispatch of the compute mip chain is well-formed for mip level count
`mlc`: it reads exactly the level below the one it writes, its destination
level lies in 1 to mlc - 1, and its workgroup counts are the ceiling of the
destination dimensions divided by 8. -/
def mipDispatchWellFormed (size : Extent3D) (mlc src dst wx wy : Nat) : Prop :=
  src + 1 = dst ∧ 1 ≤ dst ∧ dst < mlc ∧
  wx = workgroupCount (mipDim size.width dst) ∧
  wy = workgroupCount (mipDim size.height dst) ∧
  8 * (wx - 1) < mipDim size.width dst ∧ mipDim size.width dst ≤ 8 * wx ∧
  8 * (wy - 1) < mipDim size.height dst ∧ mipDim size.height dst ≤ 8 * wy

/-- C2: in both compute mip-generation paths, every dispatch writing level L
binds level L - 1 as its only texture input with workgroup counts
ceil(max(1, baseDim >> L) / 8) per axis, and for every destination level L
in 1 to mipLevelCount - 1 (and face f < 6 on the cube path) exactly the
single-step dispatch occurs. -/
theorem mipChain_single_step (size : Extent3D) (L f : Nat)
    (hL1 : 1 ≤ L) (hL2 : L < mipLevelCountFor size.width size.height) (hf : f < 6) :
    (∀ d ∈ generate2DCompute size,
      mipDispatchWellFormed size (mipLevelCountFor size.width size.height)
        d.srcLevel d.dstLevel d.workgroupsX d.workgroupsY) ∧
    (mipDispatchFor size L ∈ generate2DCompute size) ∧
    (∀ d ∈ generate2DCompute size, d.dstLevel = L →
      d.srcLevel = L - 1 ∧ d = mipDispatchFor size L) ∧
    (∀ d ∈ generateCubeCompute size,
      d.face < 6 ∧
      mipDispatchWellFormed size (mipLevelCountFor size.width size.height)
        d.srcLevel d.dstLevel d.workgroupsX d.workgroupsY) ∧
    (∃ d ∈ generateCubeCompute size, d.face = f ∧ d.dstLevel = L) ∧
    (∀ d ∈ generateCubeCompute size, d.face = f → d.dstLevel = L →
      d.srcLevel = L - 1 ∧
      d.workgroupsX = workgroupCount (mipDim size.width L) ∧
      d.workgroupsY = workgroupCount (mipDim size.height L)) := by
  have hwf : ∀ nl, 1 ≤ nl → nl < mipLevelCountFor size.width size.height →
      mipDispatchWellFormed size (mipLevelCountFor size.width size.height)
        (nl - 1) nl (workgroupCount (mipDim size.width nl))
        (workgroupCount (mipDim size.height nl)) := by
    intro nl h1 h2
    obtain ⟨hx1, hx2⟩ := workgroupCount_spec (mipDim size.width nl) (mipDim_pos _ _)
    obtain ⟨hy1, hy2⟩ := workgroupCount_spec (mipDim size.height nl) (mipDim_pos _ _)
    exact ⟨by omega, h1, h2, rfl, rfl, hx1, hx2, hy1, hy2⟩
  refine ⟨?_, ?_, ?_, ?_, ?_, ?_⟩
  · intro d hd
    obtain ⟨nl, hnl, rfl⟩ := List.mem_map.1 hd
    obtain ⟨i, hi, rfl⟩ := List.mem_range'.1 hnl
    exact hwf _ (by omega) (by omega)
  · refine List.mem_map.2 ⟨L, List.mem_range'.2 ⟨L - 1, by omega, by omega⟩, rfl⟩
  · intro d hd hdst
    obtain ⟨nl, hnl, rfl⟩ := List.mem_map.1 hd
    have : nl = L := hdst
    subst this
    exact ⟨rfl, rfl⟩
  · intro d hd
    obtain ⟨fa, hfa, hmem⟩ := List.mem_flatMap.1 hd
    obtain ⟨nl, hnl, rfl⟩ := List.mem_map.1 hmem
    obtain ⟨i, hi, rfl⟩ := List.mem_range'.1 hnl
    have hfa6 : fa < 6 := List.mem_range.1 hfa
    exact ⟨hfa6, hwf _ (by omega) (by omega)⟩
  · refine ⟨⟨f, L - 1, L, workgroupCount (mipDim size.width L),
      workgroupCount (mipDim size.height L)⟩, ?_, rfl, rfl⟩
    refine List.mem_flatMap.2 ⟨f, List.mem_range.2 hf, ?_⟩
    exact List.mem_map.2 ⟨L, List.mem_range'.2 ⟨L - 1, by omega, by omega⟩, rfl⟩
  · intro d hd hface hdst
    obtain ⟨fa, hfa, hmem⟩ := List.mem_flatMap.1 hd
    obtain ⟨nl, hnl, rfl⟩ := List.mem_map.1 hmem
    have : nl = L := hdst
    subst this
    exact ⟨rfl, rfl, rfl⟩

/-- C2 witness: the theorem applied at a 16x16x6 base extent, destination
level 2, face 3. -/
theorem mipChain_single_step_witness :
    ((1 : Nat) ≤ 2 ∧ 2 < mipLevelCountFor 16 16 ∧ (3 : Nat) < 6) ∧
    ((∀ d ∈ generate2DCompute ⟨16, 16, 6⟩,
      mipDispatchWellFormed ⟨16, 16, 6⟩ (mipLevelCountFor 16 16)
        d.srcLevel d.dstLevel d.workgroupsX d.workgroupsY) ∧
    (mipDispatchFor ⟨16, 16, 6⟩ 2 ∈ generate2DCompute ⟨16, 16, 6⟩) ∧
    (∀ d ∈ generate2DCompute ⟨16, 16, 6⟩, d.dstLevel = 2 →
      d.srcLevel = 2 - 1 ∧ d = mipDispatchFor ⟨16, 16, 6⟩ 2) ∧
    (∀ d ∈ generateCubeCompute ⟨16, 16, 6⟩,
      d.face < 6 ∧
      mipDispatchWellFormed ⟨16, 16, 6⟩ (mipLevelCountFor 16 16)
        d.srcLevel d.dstLevel d.workgroupsX d.workgroupsY) ∧
    (∃ d ∈ generateCubeCompute ⟨16, 16, 6⟩, d.face = 3 ∧ d.dstLevel = 2) ∧
    (∀ d ∈ generateCubeCompute ⟨16, 16, 6⟩, d.face = 3 → d.dstLevel = 2 →
      d.srcLevel = 2 - 1 ∧
      d.workgroupsX = workgroupCount (mipDim 16 2) ∧
      d.workgroupsY = workgroupCount (mipDim 16 2))) :=
  ⟨⟨by omega,
      by have h := mipLevelCountFor_eq 16 16 4 (by decide) (by decide); omega,
      by omega⟩,
    mipChain_single_step ⟨16, 16, 6⟩ 2 3 (by omega)
      (by show 2 < mipLevelCountFor 16 16
          have h := mipLevelCountFor_eq 16 16 4 (by decide) (by decide); omega)
      (by omega)⟩

/-- Content kind selecting the mip filtering policy (MipmapGenerator.h). -/
inductive MipKind
  | LinearUNorm2D
  | Normal2D
  | Float16Cube
  | SRGB2D
deriving DecidableEq, Repr

/-- The four IBL textures owned by the renderer. -/
inductive IblTarget
  | environment
  | irradiance
  | specular
  | brdfLUT
deriving DecidableEq, Repr, Fintype

/-- Producer stages submitted by WebgpuRenderer CreateEnvironmentTextures
(lines 874 to 886). `uploadAndConvert` is the panorama upload plus resample
(PanoramaToCubemapConverter UploadAndConvert), `generateMipmaps` a
MipmapGenerator GenerateMipmaps call on the given texture with the given
kind, and `generateMaps` the EnvironmentPreprocessor GenerateMaps call
producing the irradiance cubemap, prefiltered specular cubemap and BRDF
integration LUT. -/
inductive EnvStageEvent
  | uploadAndConvert
  | generateMipmaps (target : IblTarget) (kind : MipKind)
  | generateMaps
deriving DecidableEq, Repr

/-- The stage order of WebgpuRenderer CreateEnvironmentTextures: resample,
mip the environment cubemap, run the IBL precompute, mip the irradiance
cubemap. -/
def createEnvironmentTexturesStages : List EnvStageEvent :=
  [ .uploadAndConvert,
    .generateMipmaps .environment .Float16Cube,
    .generateMaps,
    .generateMipmaps .irradiance .Float16Cube ]

/-- Texture view parameters, mirroring wgpu::TextureViewDescriptor fields
relevant here. -/
structure TextureViewDesc where
  baseMipLevel : Nat
  mipLevelCount : Nat
  baseArrayLayer : Nat
  arrayLayerCount : Nat
deriving DecidableEq, Repr

/-- Output cubemap view bound by PanoramaToCubemapConverter UploadAndConvert
(lines 62 to 68): level 0 only, all 6 faces. -/
def uploadAndConvertOutputView : TextureViewDesc :=
  { baseMipLevel := 0, mipLevelCount := 1, baseArrayLayer := 0, arrayLayerCount := 6 }

/-- Events of WebgpuRenderer member functions that touch the IBL texture
set. A `release` models assigning nullptr to a texture member, a
`releaseView` to a texture-view member. -/
inductive RendererEvent
  | release (t : IblTarget)
  | releaseView (t : IblTarget)
  | waitForGpuIdle
  | stage (e : EnvStageEvent)
  | createGlobalBindGroup
deriving DecidableEq, Repr

/-- Event trace of WebgpuRenderer UpdateEnvironment (lines 483 to 501): the
eight texture/view members are nulled out, then CreateEnvironmentTextures
runs the producer stages, then the global bind group is recreated. -/
def updateEnvironmentEvents : List RendererEvent :=
  [ .release .environment, .releaseView .environment,
    .release .irradiance, .releaseView .irradiance,
    .release .specular, .releaseView .specular,
    .release .brdfLUT, .releaseView .brdfLUT ]
  ++ createEnvironmentTexturesStages.map .stage
  ++ [ .createGlobalBindGroup ]

/-- Event trace of WebgpuRenderer Shutdown restricted to the device-idle
wait (lines 332 to 338) and the IBL texture releases (lines 370 to 378):
the wait precedes every release. -/
def shutdownEvents : List RendererEvent :=
  [ .waitForGpuIdle,
    .releaseView .environment, .release .environment,
    .releaseView .irradiance, .release .irradiance,
    .releaseView .specular, .release .specular,
    .releaseView .brdfLUT, .release .brdfLUT ]

/-- C3: on every environment load or swap, the producer stages submitted by
the orchestrator are, in this fixed order: panorama upload and resample
(into level 0 of the environment cubemap), environment cubemap mip
generation with kind Float16Cube, the IBL precompute GenerateMaps, and
irradiance cubemap mip generation with kind Float16Cube after the
precompute. -/
theorem environmentStages_order :
    (updateEnvironmentEvents.filterMap fun e =>
      match e with
      | .stage s => some s
      | _ => none) =
      [ .uploadAndConvert,
        .generateMipmaps .environment .Float16Cube,
        .generateMaps,
        .generateMipmaps .irradiance .Float16Cube ] ∧
    uploadAndConvertOutputView.baseMipLevel = 0 ∧
    uploadAndConvertOutputView.mipLevelCount = 1 := by
  refine ⟨?_, rfl, rfl⟩
  rfl

/-- C9 counterexample: no device-idle wait occurs anywhere in
UpdateEnvironment, in particular none before the old texture set is
released; the claim that the renderer waits for in-flight GPU work at the
start of the environment update is false of the code. -/
theorem updateEnvironment_no_wait :
    RendererEvent.waitForGpuIdle ∉ updateEnvironmentEvents := by
  decide

/-- C9 amended: UpdateEnvironment releases the old texture set immediately
at its start, with no device-idle wait anywhere in the environment update;
the only device-idle wait before releasing the IBL textures happens in
Shutdown, where it precedes every release. -/
theorem updateEnvironment_release_first :
    updateEnvironmentEvents.take 8 =
      [ .release .environment, .releaseView .environment,
        .release .irradiance, .releaseView .irradiance,
        .release .specular, .releaseView .specular,
        .release .brdfLUT, .releaseView .brdfLUT ] ∧
    RendererEvent.waitForGpuIdle ∉ updateEnvironmentEvents ∧
    shutdownEvents.head? = some .waitForGpuIdle ∧
    (∀ t : IblTarget, RendererEvent.release t ∉ shutdownEvents.take 1) := by
  refine ⟨rfl, by decide, rfl, by decide⟩

/-- Uniform-buffer writes performed by PanoramaToCubemapConverter
InitUniformBuffers (lines 116 to 129): for face 0 to 5, the value `face`
is written into per-face buffer `face`.  Each pair is
(buffer index, written value). -/
def panoramaConverter_initUniformWrites : List (Nat × Nat) :=
  (List.range 6).map fun face => (face, face)

/-- Uniform-buffer writes performed by MipmapGenerator initUniformBuffers
(lines 113 to 124 of the MipmapGenerator implementation): same shape as the
converter's. -/
def mipmapGenerator_initUniformWrites : List (Nat × Nat) :=
  (List.range 6).map fun face => (face, face)

/-- PanoramaToCubemapConverter InitBindGroups (lines 182 to 195): the
per-face bind group for face `face` references per-face uniform buffer
`face`. -/
def panoramaConverter_bindGroupBuffer (face : Nat) : Nat := face

/-- MipmapGenerator initBindGroupLayouts (lines 176 to 188): the face bind
group for face `face` references uniform buffer `face`. -/
def mipmapGenerator_faceBindGroupBuffer (face : Nat) : Nat := face

/-- Value held by uniform buffer `buf` after a list of writes: the last
write to that buffer wins. -/
def uniformBufferContent (writes : List (Nat × Nat)) (buf : Nat) : Option Nat :=
  ((writes.filter fun wr => wr.1 == buf).map Prod.snd).getLast?

/-- Face iteration order of the UploadAndConvert dispatch loop
(PanoramaToCubemapConverter.cpp lines 97 to 108): `for face = 0; face < 6`. -/
def uploadAndConvertFaceOrder : List Nat := List.range 6

/-- C4: in the per-face cube passes, the uniform value bound for logical
face i is exactly i (the bind group for face i references buffer i, whose
content after initialization is i), the resample pass iterates faces
0,1,2,3,4,5 in increasing order, and the cube mip pass dispatches all its
levels for face 0, then face 1, ..., then face 5. -/
theorem perFaceUniform_identity (size : Extent3D) (i : Nat) (hi : i < 6) :
    uniformBufferContent panoramaConverter_initUniformWrites
      (panoramaConverter_bindGroupBuffer i) = some i ∧
    uniformBufferContent mipmapGenerator_initUniformWrites
      (mipmapGenerator_faceBindGroupBuffer i) = some i ∧
    uploadAndConvertFaceOrder = [0, 1, 2, 3, 4, 5] ∧
    (generateCubeCompute size).map CubeMipDispatch.face =
      (List.range 6).flatMap
        (fun f => List.replicate (mipLevelCountFor size.width size.height - 1) f) := by
  refine ⟨?_, ?_, rfl, ?_⟩
  · interval_cases i <;> decide
  · interval_cases i <;> decide
  · simp only [generateCubeCompute, List.map_flatMap, List.map_map]
    refine List.flatMap_congr ?_
    intro f _
    simp [Function.comp_def, List.map_const', List.length_range']

/-- C4 witness: the theorem applied at face 4 and a 32x32 cube extent. -/
theorem perFaceUniform_identity_witness :
    (4 : Nat) < 6 ∧
    (uniformBufferContent panoramaConverter_initUniformWrites
      (panoramaConverter_bindGroupBuffer 4) = some 4 ∧
    uniformBufferContent mipmapGenerator_initUniformWrites
      (mipmapGenerator_faceBindGroupBuffer 4) = some 4 ∧
    uploadAndConvertFaceOrder = [0, 1, 2, 3, 4, 5] ∧
    (generateCubeCompute ⟨32, 32, 6⟩).map CubeMipDispatch.face =
      (List.range 6).flatMap
        (fun f => List.replicate (mipLevelCountFor 32 32 - 1) f)) :=
  ⟨by omega, perFaceUniform_identity ⟨32, 32, 6⟩ 4 (by omega)⟩

/-- Address modes, mirroring wgpu::AddressMode. -/
inductive AddressMode
  | ClampToEdge
  | Repeat
  | MirrorRepeat
deriving DecidableEq, Repr

/-- Filter modes, mirroring wgpu::FilterMode / wgpu::MipmapFilterMode. -/
inductive FilterMode
  | Nearest
  | Linear
deriving DecidableEq, Repr

/-- Sampler binding types, mirroring wgpu::SamplerBindingType. -/
inductive SamplerBindingType
  | Filtering
  | NonFiltering
  | Comparison
deriving DecidableEq, Repr

/-- Sampler configuration, mirroring the wgpu::SamplerDescriptor fields set
by the converter. -/
structure SamplerDescriptor where
  addressModeU : AddressMode
  addressModeV : AddressMode
  addressModeW : AddressMode
  minFilter : FilterMode
  magFilter : FilterMode
  mipmapFilter : FilterMode
deriving DecidableEq, Repr

/-- The sampler created by PanoramaToCubemapConverter InitSampler (lines
131 to 140). -/
def panoramaConverter_samplerDescriptor : SamplerDescriptor :=
  { addressModeU := .Repeat
    addressModeV := .ClampToEdge
    addressModeW := .Repeat
    minFilter := .Nearest
    magFilter := .Nearest
    mipmapFilter := .Nearest }

/-- Sampler binding type declared for the panorama sampler in
PanoramaToCubemapConverter InitBindGroupLayouts (line 146). -/
def panoramaConverter_samplerBindingType : SamplerBindingType :=
  .NonFiltering

/-- C5: the panorama resampler's sampler is non-filtering with nearest
min/mag/mip filters, repeat addressing along U (longitude wraps) and
clamp-to-edge along V (latitude clamps at the poles). -/
theorem panoramaSampler_config :
    panoramaConverter_samplerDescriptor.addressModeU = .Repeat ∧
    panoramaConverter_samplerDescriptor.addressModeV = .ClampToEdge ∧
    panoramaConverter_samplerDescriptor.minFilter = .Nearest ∧
    panoramaConverter_samplerDescriptor.magFilter = .Nearest ∧
    panoramaConverter_samplerDescriptor.mipmapFilter = .Nearest ∧
    panoramaConverter_samplerBindingType = .NonFiltering := by
  refine ⟨rfl, rfl, rfl, rfl, rfl, rfl⟩

/-- Irradiance map face size (WebgpuRenderer.cpp line 53). -/
def kIrradianceMapSize : Nat := 64

/-- Prefiltered specular map face size (WebgpuRenderer.cpp line 54). -/
def kPrecomputedSpecularMapSize : Nat := 512

/-- BRDF integration LUT size (WebgpuRenderer.cpp line 55). -/
def kBRDFIntegrationLUTMapSize : Nat := 128

/-- Mip level count of the prefiltered specular cubemap (512 x 512 faces). -/
def specularMipLevelCount : Nat :=
  mipLevelCountFor kPrecomputedSpecularMapSize kPrecomputedSpecularMapSize

/-- Modelled from the spec: the EnvironmentPreprocessor implementation file
(EnvironmentPreprocessor.cpp, containing createPerMipBindGroups) is not
among the sources; only its header is.  The spec states that the specular
prefilter derives from mip index m a roughness value that increases
monotonically with m, with roughness 0 at mip 0 and roughness 1 at the last
mip, which the linear ramp m / (mipLevelCount - 1) realizes. -/
def specularRoughness (mipLevelCount m : Nat) : ℚ :=
  (m : ℚ) / ((mipLevelCount - 1 : Nat) : ℚ)

/-- C6: the roughness bound for mip m + 1 is at least the roughness bound
for mip m for every valid m, with roughness 0 at mip 0 and roughness 1 at
the last mip; the specular cubemap of this pipeline has 10 mip levels. -/
theorem specularRoughness_monotone (n m : Nat) (hn : 2 ≤ n) (_hm : m + 1 ≤ n - 1) :
    specularRoughness n m ≤ specularRoughness n (m + 1) ∧
    specularRoughness n 0 = 0 ∧
    specularRoughness n (n - 1) = 1 ∧
    specularMipLevelCount = 10 := by
  have hd : (0 : ℚ) < ((n - 1 : Nat) : ℚ) := by
    have h1 : 1 ≤ n - 1 := Nat.le_pred_of_lt hn
    exact_mod_cast Nat.lt_of_lt_of_le Nat.zero_lt_one h1
  refine ⟨?_, ?_, ?_, ?_⟩
  · exact (div_le_div_iff_of_pos_right hd).2 (by exact_mod_cast Nat.le_succ m)
  · simp [specularRoughness]
  · exact div_self hd.ne'
  · exact mipLevelCountFor_eq 512 512 9 (by decide) (by decide)

/-- C6 witness: the theorem applied at the pipeline's 10-level specular
chain, mip 3. -/
theorem specularRoughness_monotone_witness :
    ((2 : Nat) ≤ 10 ∧ 3 + 1 ≤ 10 - 1) ∧
    (specularRoughness 10 3 ≤ specularRoughness 10 (3 + 1) ∧
    specularRoughness 10 0 = 0 ∧
    specularRoughness 10 (10 - 1) = 1 ∧
    specularMipLevelCount = 10) :=
  ⟨⟨by omega, by omega⟩, specularRoughness_monotone 10 3 (by omega) (by omega)⟩

/-- Loop of FloorPow2 (WebgpuRenderer.cpp lines 57 to 63):
`power = 1; while (power * 2 <= x) power *= 2; return power`.
The `0 < power` conjunct in the guard is invariantly true from the entry
value 1 (it can only double) and exists solely to justify termination. -/
def floorPow2Aux (x power : Nat) : Nat :=
  if h : 0 < power ∧ power * 2 ≤ x then floorPow2Aux x (power * 2) else power
termination_by x - power
decreasing_by omega

/-- FloorPow2: largest power of two not exceeding x (1 for x < 2). -/
def FloorPow2 (x : Nat) : Nat := floorPow2Aux x 1

theorem floorPow2Aux_spec (x power : Nat) :
    (∃ j, power = 2 ^ j) → power ≤ x →
    ∃ k, floorPow2Aux x power = 2 ^ k ∧ 2 ^ k ≤ x ∧ x < 2 ^ (k + 1) := by
  induction power using floorPow2Aux.induct x with
  | case1 p hp ih =>
    intro hpow hle
    obtain ⟨j, rfl⟩ := hpow
    rw [floorPow2Aux, dif_pos hp]
    exact ih ⟨j + 1, by rw [pow_succ]⟩ hp.2
  | case2 p hp =>
    intro hpow hle
    obtain ⟨j, rfl⟩ := hpow
    rw [floorPow2Aux, dif_neg hp]
    refine ⟨j, rfl, hle, ?_⟩
    push_neg at hp
    have hpos : 0 < 2 ^ j := pow_pos (by omega) j
    have hx := hp hpos
    rw [pow_succ]
    omega

/-- The IBL textures created by WebgpuRenderer CreateEnvironmentTextures
(lines 851 to 872): target, extent, and whether mipmapping is requested.
The environment cubemap face size is FloorPow2 of the panorama width. -/
def createEnvironmentTexturesExtents (panoramaWidth : Nat) :
    List (IblTarget × Extent3D × Bool) :=
  [ (.environment, ⟨FloorPow2 panoramaWidth, FloorPow2 panoramaWidth, 6⟩, true),
    (.irradiance, ⟨kIrradianceMapSize, kIrradianceMapSize, 6⟩, true),
    (.specular, ⟨kPrecomputedSpecularMapSize, kPrecomputedSpecularMapSize, 6⟩, true),
    (.brdfLUT, ⟨kBRDFIntegrationLUTMapSize, kBRDFIntegrationLUTMapSize, 1⟩, false) ]

/-- C10: the environment cubemap is created with face size
FloorPow2(panorama width); FloorPow2 returns a power of two for every
input (in particular the loop terminates on every non-negative input),
returns the largest power of two not exceeding x whenever 1 ≤ x, returns 1
below 2, and maps 4096 to 4096. -/
theorem floorPow2_spec (x w : Nat) (hx : 1 ≤ x) :
    (createEnvironmentTexturesExtents w).head? =
      some (.environment, ⟨FloorPow2 w, FloorPow2 w, 6⟩, true) ∧
    (∃ k, FloorPow2 x = 2 ^ k ∧ 2 ^ k ≤ x ∧ x < 2 ^ (k + 1)) ∧
    (∀ y, ∃ k, FloorPow2 y = 2 ^ k) ∧
    (∀ y, y < 2 → FloorPow2 y = 1) ∧
    FloorPow2 4096 = 4096 := by
  have hsmall : ∀ y, y < 2 → FloorPow2 y = 1 := by
    intro y hy
    rw [FloorPow2, floorPow2Aux, dif_neg (by omega)]
  refine ⟨rfl, floorPow2Aux_spec x 1 ⟨0, rfl⟩ hx, ?_, hsmall, ?_⟩
  · intro y
    rcases Nat.lt_or_ge y 1 with hy | hy
    · exact ⟨0, by rw [hsmall y (by omega)]; norm_num⟩
    · obtain ⟨k, hk, -, -⟩ := floorPow2Aux_spec y 1 ⟨0, rfl⟩ hy
      exact ⟨k, hk⟩
  · obtain ⟨k, hk, hk1, hk2⟩ := floorPow2Aux_spec 4096 1 ⟨0, rfl⟩ (by omega)
    have hk12 : k = 12 := by
      rcases Nat.lt_or_ge k 12 with hlt | hge
      · exfalso
        have hle : 2 ^ (k + 1) ≤ 2 ^ 12 := Nat.pow_le_pow_right (by omega) (by omega)
        have h12 : (2 : Nat) ^ 12 = 4096 := by norm_num
        omega
      · rcases Nat.lt_or_ge 12 k with hlt' | hle'
        · exfalso
          have hge13 : 2 ^ 13 ≤ 2 ^ k := Nat.pow_le_pow_right (by omega) (by omega)
          have h13 : (2 : Nat) ^ 13 = 8192 := by norm_num
          omega
        · omega
    show floorPow2Aux 4096 1 = 4096
    rw [hk, hk12]
    norm_num

/-- C10 witness: the theorem applied at x = 100 (and panorama width 4096),
where the largest power of two below x is 64. -/
theorem floorPow2_spec_witness :
    (1 : Nat) ≤ 100 ∧
    ((createEnvironmentTexturesExtents 4096).head? =
      some (.environment, ⟨FloorPow2 4096, FloorPow2 4096, 6⟩, true) ∧
    (∃ k, FloorPow2 100 = 2 ^ k ∧ 2 ^ k ≤ 100 ∧ 100 < 2 ^ (k + 1)) ∧
    (∀ y, ∃ k, FloorPow2 y = 2 ^ k) ∧
    (∀ y, y < 2 → FloorPow2 y = 1) ∧
    FloorPow2 4096 = 4096) :=
  ⟨by omega, floorPow2_spec 100 4096 (by omega)⟩

/-- Host texture stored by Environment (Environment.h struct Texture).
Pixel floats are modelled as rationals; `data` is indexed access into the
`_data` vector, whose length is `dataLen` (indices at or beyond `dataLen`
read the vector's zero-fill). -/
structure EnvTexture where
  name : String
  width : Nat
  height : Nat
  components : Nat
  dataLen : Nat
  data : Nat → ℚ

/-- Environment transform: identity after a successful load, a Y-rotation
after UpdateRotation. -/
inductive Transform
  | identity
  | rotationY (angle : ℚ)

/-- Environment state: the stored transform and texture (Environment.h). -/
structure EnvironmentState where
  transform : Transform
  texture : EnvTexture

/-- Result of the stb_image decode step, which is external to the
repository: `none` models a failed decode (null data pointer), `some`
carries the decoded width, height and 4-channel pixel data. -/
structure DecodedImage where
  width : Nat
  height : Nat
  data : Nat → ℚ

/-- One bilinearly interpolated output texel of DownsampleTexture
(Environment.cpp lines 34 to 53), reading the original `origW x origH`
pixel array at 4 channels per texel.  Output coordinates: row `j`,
column `i`, channel `c`. -/
def downsampledTexel (data : Nat → ℚ) (origW origH : Nat) (j i c : Nat) : ℚ :=
  let scaleX : ℚ := ((origW - 1 : Nat) : ℚ) / ((4096 - 1 : Nat) : ℚ)
  let scaleY : ℚ := ((origH - 1 : Nat) : ℚ) / ((2048 - 1 : Nat) : ℚ)
  let origY : ℚ := (j : ℚ) * scaleY
  let y0 : Nat := (⌊origY⌋).toNat
  let y1 : Nat := min (y0 + 1) (origH - 1)
  let dy : ℚ := origY - (y0 : ℚ)
  let origX : ℚ := (i : ℚ) * scaleX
  let x0 : Nat := (⌊origX⌋).toNat
  let x1 : Nat := min (x0 + 1) (origW - 1)
  let dx : ℚ := origX - (x0 : ℚ)
  let c00 := data ((y0 * origW + x0) * 4 + c)
  let c10 := data ((y0 * origW + x1) * 4 + c)
  let c01 := data ((y1 * origW + x0) * 4 + c)
  let c11 := data ((y1 * origW + x1) * 4 + c)
  let top := c00 + dx * (c10 - c00)
  let bottom := c01 + dx * (c11 - c01)
  top + dy * (bottom - top)

/-- DownsampleTexture (Environment.cpp lines 22 to 63): resizes the stored
texture to exactly 4096 x 2048 via host-side bilinear resampling of the
original `origW x origH` data. -/
def DownsampleTexture (t : EnvTexture) (origW origH : Nat) : EnvTexture :=
  { t with
    width := 4096
    height := 2048
    dataLen := 4096 * 2048 * 4
    data := fun idx =>
      if idx < 4096 * 2048 * 4 then
        downsampledTexel t.data origW origH (idx / 4 / 4096) (idx / 4 % 4096) (idx % 4)
      else 0 }

/-- LoadFromSource (Environment.cpp lines 66 to 106): decode, validate the
2:1 aspect ratio, store the decoded pixels, and downsample when the width
exceeds 4096.  Returns the success flag and the resulting texture. -/
def LoadFromSource (texture : EnvTexture) (decoded : Option DecodedImage) :
    Bool × EnvTexture :=
  match decoded with
  | none => (false, texture)
  | some img =>
    if img.width ≠ 2 * img.height then (false, texture)
    else
      let stored : EnvTexture :=
        { texture with
          width := img.width
          height := img.height
          components := 4
          dataLen := img.width * img.height * 4
          data := fun idx => if idx < img.width * img.height * 4 then img.data idx else 0 }
      if 4096 < img.width then (true, DownsampleTexture stored img.width img.height)
      else (true, stored)

/-- Environment::Load (Environment.cpp lines 113 to 128): runs
LoadFromSource on the stored texture; on success also records the filename
and resets the transform to identity. -/
def Environment_Load (st : EnvironmentState) (filename : String)
    (decoded : Option DecodedImage) : Bool × EnvironmentState :=
  match LoadFromSource st.texture decoded with
  | (true, tex) => (true, { transform := .identity, texture := { tex with name := filename } })
  | (false, tex) => (false, { st with texture := tex })

/-- A failed decode leaves LoadFromSource's texture untouched. -/
theorem LoadFromSource_none (t : EnvTexture) : LoadFromSource t none = (false, t) := rfl

/-- A decoded image violating the 2:1 aspect ratio leaves LoadFromSource's
texture untouched. -/
theorem LoadFromSource_badAspect (t : EnvTexture) (img : DecodedImage)
    (hbad : img.width ≠ 2 * img.height) : LoadFromSource t (some img) = (false, t) := by
  simp only [LoadFromSource]
  rw [if_pos hbad]

/-- On a successful decode with valid aspect ratio, Load returns true and
replaces the stored texture with the freshly decoded one (name set to the
filename, transform reset to identity). -/
theorem environmentLoad_success_replaces (st : EnvironmentState) (filename : String)
    (img : DecodedImage) (hgood : img.width = 2 * img.height) :
    (Environment_Load st filename (some img)).1 = true ∧
    (Environment_Load st filename (some img)).2.transform = .identity ∧
    (Environment_Load st filename (some img)).2.texture =
      { (LoadFromSource st.texture (some img)).2 with name := filename } := by
  obtain ⟨tex, htex⟩ : ∃ tex, LoadFromSource st.texture (some img) = (true, tex) := by
    simp only [LoadFromSource]
    rw [if_neg (by omega)]
    by_cases hw : 4096 < img.width
    · rw [if_pos hw]
      exact ⟨_, rfl⟩
    · rw [if_neg hw]
      exact ⟨_, rfl⟩
  simp [Environment_Load, htex]

/-- C7: Environment::Load returns false when the decode fails or the decoded
width is not exactly twice the decoded height, leaving the stored texture
and transform completely unchanged (the previous environment stays active);
on success it returns true and replaces the stored texture, recording the
filename and resetting the transform. -/
theorem environmentLoad_spec (st : EnvironmentState) (filename : String)
    (decoded : Option DecodedImage) :
    ((decoded = none ∨ ∃ img, decoded = some img ∧ img.width ≠ 2 * img.height) →
      Environment_Load st filename decoded = (false, st)) ∧
    (∀ img, decoded = some img → img.width = 2 * img.height →
      (Environment_Load st filename decoded).1 = true ∧
      (Environment_Load st filename decoded).2.transform = .identity ∧
      (Environment_Load st filename decoded).2.texture =
        { (LoadFromSource st.texture decoded).2 with name := filename }) := by
  constructor
  · intro hfail
    rcases hfail with hnone | ⟨img, hsome, hbad⟩
    · subst hnone
      rfl
    · subst hsome
      simp only [Environment_Load, LoadFromSource_badAspect st.texture img hbad]
  · intro img hsome hgood
    subst hsome
    exact environmentLoad_success_replaces st filename img hgood

/-- C7 witness: the theorem applied twice over a concrete previous state,
once to a failed decode (the state survives untouched) and once to a valid
4 x 2 decode (the load succeeds). -/
theorem environmentLoad_spec_witness :
    (Environment_Load ⟨.identity, ⟨"old", 4, 2, 4, 32, fun _ => 1⟩⟩ "bad.hdr" none =
      (false, ⟨.identity, ⟨"old", 4, 2, 4, 32, fun _ => 1⟩⟩)) ∧
    (Environment_Load ⟨.identity, ⟨"old", 4, 2, 4, 32, fun _ => 1⟩⟩ "new.hdr"
        (some ⟨4, 2, fun _ => 2⟩)).1 = true :=
  ⟨(environmentLoad_spec ⟨.identity, ⟨"old", 4, 2, 4, 32, fun _ => 1⟩⟩ "bad.hdr" none).1
      (Or.inl rfl),
    ((environmentLoad_spec ⟨.identity, ⟨"old", 4, 2, 4, 32, fun _ => 1⟩⟩ "new.hdr"
      (some ⟨4, 2, fun _ => 2⟩)).2 ⟨4, 2, fun _ => 2⟩ rfl rfl).1⟩

/-- C8: after a successful decode, the bilinear downsample to exactly
4096 x 2048 runs if and only if the decoded width exceeds 4096; a panorama
at most 4096 wide is stored at its original resolution with its decoded
pixel data unchanged. -/
theorem downsample_iff_wide (tex : EnvTexture) (img : DecodedImage)
    (hgood : img.width = 2 * img.height) :
    (LoadFromSource tex (some img)).1 = true ∧
    (4096 < img.width →
      (LoadFromSource tex (some img)).2.width = 4096 ∧
      (LoadFromSource tex (some img)).2.height = 2048 ∧
      ∀ idx, idx < 4096 * 2048 * 4 →
        (LoadFromSource tex (some img)).2.data idx =
          downsampledTexel
            (fun i => if i < img.width * img.height * 4 then img.data i else 0)
            img.width img.height (idx / 4 / 4096) (idx / 4 % 4096) (idx % 4)) ∧
    (img.width ≤ 4096 →
      (LoadFromSource tex (some img)).2.width = img.width ∧
      (LoadFromSource tex (some img)).2.height = img.height ∧
      ∀ idx, idx < img.width * img.height * 4 →
        (LoadFromSource tex (some img)).2.data idx = img.data idx) := by
  simp only [LoadFromSource]
  rw [if_neg (by omega)]
  by_cases hw : 4096 < img.width
  · rw [if_pos hw]
    refine ⟨rfl, fun _ => ⟨rfl, rfl, fun idx hidx => ?_⟩, fun hle => absurd hw (by omega)⟩
    simp [DownsampleTexture, hidx]
  · rw [if_neg hw]
    refine ⟨rfl, fun hgt => absurd hgt hw, fun _ => ⟨rfl, rfl, fun idx hidx => ?_⟩⟩
    simp [hidx]

/-- C8 witness: the theorem applied to a concrete 4 x 2 decoded image
(width within the cap, so the stored texture keeps its resolution). -/
theorem downsample_iff_wide_witness :
    (4 : Nat) = 2 * 2 ∧
    ((LoadFromSource ⟨"old", 1, 1, 4, 4, fun _ => 0⟩ (some ⟨4, 2, fun _ => 1⟩)).1 = true ∧
    (4096 < (4 : Nat) →
      (LoadFromSource ⟨"old", 1, 1, 4, 4, fun _ => 0⟩ (some ⟨4, 2, fun _ => 1⟩)).2.width =
        4096 ∧
      (LoadFromSource ⟨"old", 1, 1, 4, 4, fun _ => 0⟩ (some ⟨4, 2, fun _ => 1⟩)).2.height =
        2048 ∧
      ∀ idx, idx < 4096 * 2048 * 4 →
        (LoadFromSource ⟨"old", 1, 1, 4, 4, fun _ => 0⟩
            (some ⟨4, 2, fun _ => 1⟩)).2.data idx =
          downsampledTexel (fun i => if i < 4 * 2 * 4 then (1 : ℚ) else 0) 4 2
            (idx / 4 / 4096) (idx / 4 % 4096) (idx % 4)) ∧
    ((4 : Nat) ≤ 4096 →
      (LoadFromSource ⟨"old", 1, 1, 4, 4, fun _ => 0⟩ (some ⟨4, 2, fun _ => 1⟩)).2.width =
        4 ∧
      (LoadFromSource ⟨"old", 1, 1, 4, 4, fun _ => 0⟩ (some ⟨4, 2, fun _ => 1⟩)).2.height =
        2 ∧
      ∀ idx, idx < 4 * 2 * 4 →
        (LoadFromSource ⟨"old", 1, 1, 4, 4, fun _ => 0⟩
            (some ⟨4, 2, fun _ => 1⟩)).2.data idx = 1)) :=
  ⟨by omega, downsample_iff_wide ⟨"old", 1, 1, 4, 4, fun _ => 0⟩ ⟨4, 2, fun _ => 1⟩ rfl⟩

end GfxSandbox
